import Mathlib

/-!
Verification development for the mcp_script_runner repository.

Shallow embedding of the Python sources:
  * src/mcp_script_runner/config.py   (ScriptConfig, MCPConfig, ConfigManager)
  * src/mcp_script_runner/executor.py (ScriptExecutionResult, ScriptExecutor)
  * src/mcp_script_runner/server.py   (call_tool dispatcher and the six handlers)

Modelling conventions:
  * Python exceptions are modelled by the `Except PyExn` control type; a
    Python `try/except` becomes a `match` on that type.
  * The outside world (the config file on disk, the filesystem, the spawned
    child process) is supplied as explicit data (`ConfigFile`, a list of
    existing paths, `SpawnOutcome`), so every function is executable.
  * Observable side effects that claims talk about (which spawn requests were
    issued, which signals were sent to the child, which registry names were
    looked up, which paths were checked on the filesystem) are collected in an
    `Effects` record returned alongside the result.
  * Machine floats (`time.time()` differences) are abstracted: the elapsed
    time at resolution is a `Nat` supplied by the environment; no claim
    depends on its value.  `Path(...).resolve()` filesystem canonicalization
    is likewise not modelled; claims concern the chosen (pre-resolution)
    working-directory string.
-/

/-- Configuration record for one script, from config.py `ScriptConfig`.
Field order follows the pydantic model: name, path, description, arguments,
working_directory, timeout. -/
structure ScriptConfig where
  name : String
  path : String
  description : String
  arguments : List String
  working_directory : Option String
  timeout : Nat
deriving DecidableEq

/-- Main configuration, from config.py `MCPConfig`.  The scripts dict is an
association list with unique keys (a JSON object). -/
structure MCPConfig where
  working_directory : String
  scripts : List (String × ScriptConfig)
  docker_image : String
  container_name : String
  mount_path : String
deriving DecidableEq

/-- In-memory state of config.py `ConfigManager`: the lazily loaded
`_config` field. -/
structure ConfigManagerState where
  _config : Option MCPConfig
deriving DecidableEq

/-- What the configuration file on disk yields when loaded: the file can be
missing, or parse/validate to an `MCPConfig`, or fail (json.load or pydantic
validation raising); the error string is the Python exception text. -/
inductive ConfigFile where
  | missing
  | parsed (loaded : Except String MCPConfig)

/-- Python exception values that cross the embedded functions, with the
payload of str(e).  str() of an asyncio.TimeoutError is the empty string. -/
inductive PyExn where
  | timeoutError
  | unicodeDecodeError (msg : String)
  | valueError (msg : String)
  | exn (msg : String)
deriving DecidableEq

/-- Python str(e) for a caught exception. -/
def PyExn.str : PyExn → String
  | .timeoutError => ""
  | .unicodeDecodeError m => m
  | .valueError m => m
  | .exn m => m

/-- Default MCPConfig built in config.py load_config when the file is
missing (MCPConfig constructed with working_directory "." and no scripts). -/
def defaultMCPConfig : MCPConfig :=
  { working_directory := "."
    scripts := []
    docker_image := "ubuntu:22.04"
    container_name := "mcp-script-runner"
    mount_path := "/workspace" }

/-- config.py `ConfigManager.load_config`: read the file if it exists (a
parse/validation failure raises ValueError "Failed to load configuration:
..."), otherwise install the default configuration (the write of the default
file to disk is a side effect outside the model).  Returns the Python
return value together with the updated manager state; on a raise the
`_config` assignment did not happen, so the state is unchanged. -/
def load_config (file : ConfigFile) (st : ConfigManagerState) :
    Except PyExn MCPConfig × ConfigManagerState :=
  match file with
  | .missing => (.ok defaultMCPConfig, { _config := some defaultMCPConfig })
  | .parsed (.ok c) => (.ok c, { _config := some c })
  | .parsed (.error e) =>
      (.error (.valueError ("Failed to load configuration: " ++ e)), st)

/-- config.py `ConfigManager.reload_config`: clear `_config`, then load. -/
def reload_config (file : ConfigFile) (_st : ConfigManagerState) :
    Except PyExn MCPConfig × ConfigManagerState :=
  load_config file { _config := none }

/-- config.py `ConfigManager.config` property: return the loaded config,
loading it first when `_config` is still None. -/
def configProp (file : ConfigFile) (st : ConfigManagerState) :
    Except PyExn MCPConfig × ConfigManagerState :=
  match st._config with
  | some c => (.ok c, st)
  | none => load_config file st

/-- Python dict.get on the scripts mapping: first (unique) key match. -/
def lookupScript (l : List (String × ScriptConfig)) (n : String) :
    Option ScriptConfig :=
  (l.find? (fun p => p.1 == n)).map Prod.snd

/-- Result record from executor.py `ScriptExecutionResult`. -/
structure ScriptExecutionResult where
  exit_code : Int
  stdout : String
  stderr : String
  execution_time : Nat
  script_name : String
deriving DecidableEq

/-- executor.py `ScriptExecutionResult.success`: exit code zero. -/
def ScriptExecutionResult.success (r : ScriptExecutionResult) : Bool :=
  r.exit_code == 0

/-- A request made to the process-spawn primitive: either an argv vector of
discrete tokens handed to a no-shell exec primitive
(asyncio.create_subprocess_exec), or a single command-line string handed to a
shell (asyncio.create_subprocess_shell; never used by this code, present so
claims can state which kind was issued). -/
inductive SpawnRequest where
  | exec (argv : List String)
  | shellCommand (cmdline : String)
deriving DecidableEq

/-- Check whether a spawn request goes through a shell. -/
def SpawnRequest.isShellCommand : SpawnRequest → Bool
  | .exec _ => false
  | .shellCommand _ => true

/-- Signals the executor can send to the child process. -/
inductive Sig where
  | term
  | kill
deriving DecidableEq

/-- Environment-supplied outcome of spawning and awaiting the child process:
the spawn call itself raised (OSError etc., message of str(e)); or the child
completed within the timeout with a returncode (None is possible at the
Python level) and raw captured bytes on each pipe; or asyncio.wait_for timed
out, with the flag telling whether the process had still not exited
(returncode is None) when the handler ran. -/
inductive SpawnOutcome where
  | spawnError (msg : String)
  | completed (returncode : Option Int) (stdoutBytes stderrBytes : List Nat)
  | timedOut (stillRunning : Bool)

/-- Observable side effects of one handler invocation. -/
structure Effects where
  lookups : List String := []
  spawned : List SpawnRequest := []
  signals : List Sig := []
  fsChecked : List String := []
deriving DecidableEq

/-- Concatenation of two effect logs. -/
def mergeEffects (a b : Effects) : Effects :=
  { lookups := a.lookups ++ b.lookups
    spawned := a.spawned ++ b.spawned
    signals := a.signals ++ b.signals
    fsChecked := a.fsChecked ++ b.fsChecked }

/-- UTF-8 continuation byte (0x80..0xBF). -/
def isUtf8Cont (b : Nat) : Bool := 128 ≤ b && b ≤ 191

/-- Strict UTF-8 decoding of a byte list, fuel-indexed so the definition is
structurally recursive and reduces inside the kernel.  The accepted byte
sequences are exactly those CPython's strict utf-8 codec accepts: 1-byte
0x00..0x7F; 2-byte lead 0xC2..0xDF; 3-byte lead 0xE0..0xEF with the usual
restricted second byte for 0xE0 (0xA0..0xBF) and 0xED (0x80..0x9F, excluding
surrogates); 4-byte lead 0xF0..0xF4 with restricted second byte for 0xF0
(0x90..0xBF) and 0xF4 (0x80..0x8F). -/
def utf8DecodeAux : Nat → List Nat → Option (List Char)
  | _, [] => some []
  | 0, _ :: _ => none
  | fuel + 1, b :: rest =>
    if b ≤ 127 then
      (utf8DecodeAux fuel rest).map (fun cs => Char.ofNat b :: cs)
    else if 194 ≤ b && b ≤ 223 then
      match rest with
      | b1 :: rest2 =>
        if isUtf8Cont b1 then
          (utf8DecodeAux fuel rest2).map
            (fun cs => Char.ofNat ((b - 192) * 64 + (b1 - 128)) :: cs)
        else none
      | [] => none
    else if 224 ≤ b && b ≤ 239 then
      match rest with
      | b1 :: b2 :: rest3 =>
        if (((if b == 224 then 160 else 128) ≤ b1 &&
              b1 ≤ (if b == 237 then 159 else 191)) && isUtf8Cont b2) then
          (utf8DecodeAux fuel rest3).map
            (fun cs =>
              Char.ofNat ((b - 224) * 4096 + (b1 - 128) * 64 + (b2 - 128)) :: cs)
        else none
      | _ => none
    else if 240 ≤ b && b ≤ 244 then
      match rest with
      | b1 :: b2 :: b3 :: rest4 =>
        if ((((if b == 240 then 144 else 128) ≤ b1 &&
               b1 ≤ (if b == 244 then 143 else 191)) && isUtf8Cont b2) &&
             isUtf8Cont b3) then
          (utf8DecodeAux fuel rest4).map
            (fun cs =>
              Char.ofNat
                ((b - 240) * 262144 + (b1 - 128) * 4096 + (b2 - 128) * 64 +
                  (b3 - 128)) :: cs)
        else none
      | _ => none
    else none

/-- Python bytes.decode("utf-8") with the default strict error handling:
the decoded text, or `none` when the bytes are not valid UTF-8 (Python
raises UnicodeDecodeError there). -/
def pyDecodeUtf8 (bs : List Nat) : Option String :=
  (utf8DecodeAux bs.length bs).map List.asString

/-- Python `a or b` for an Optional[int] left operand (executor.py line 117,
`process.returncode or 0`): None and 0 are falsy. -/
def pyOrInt (a : Option Int) (b : Int) : Int :=
  match a with
  | none => b
  | some c => if c = 0 then b else c

/-- Python truthiness of an Optional[str]: None and "" are falsy. -/
def pyTruthyStr (a : Option String) : Bool :=
  match a with
  | none => false
  | some s => !s.isEmpty

/-- Python `a or b` for an Optional[str] left operand: None and "" fall
through to the right operand. -/
def pyOrStr (a : Option String) (b : String) : String :=
  match a with
  | none => b
  | some s => if s.isEmpty then b else s

/-- Fallback working directory: executor.py line 95's right operand,
`self.config_manager.config.working_directory` (the config property may load
the configuration, and loading may raise). -/
def fallbackWd (file : ConfigFile) (st : ConfigManagerState) :
    Except PyExn String × ConfigManagerState :=
  match configProp file st with
  | (.error e, st2) => (.error e, st2)
  | (.ok c, st2) => (.ok c.working_directory, st2)

/-- Effective working directory, executor.py line 95:
`script_config.working_directory or self.config_manager.config.working_directory`
with Python's short-circuiting `or` (a truthy override wins; None or empty
falls back to the manager's config). -/
def effectiveWorkingDir (file : ConfigFile) (st : ConfigManagerState)
    (sc : ScriptConfig) : Except PyExn String × ConfigManagerState :=
  match sc.working_directory with
  | some s => if s.isEmpty then fallbackWd file st else (.ok s, st)
  | none => fallbackWd file st

/-- Body of the `try` block of executor.py `_execute_script_config`
(lines 100-122): build the argv `["bash", script_config.path] + arguments`
(line 92), hand it to the no-shell spawn primitive
asyncio.create_subprocess_exec, await completion under the timeout, and
decode the captured bytes strictly.  Each failure mode becomes an
`Except.error`: the spawn call raising, asyncio.wait_for raising
TimeoutError, or a strict-decode failure raising UnicodeDecodeError (whose
CPython message text is abstracted by a fixed string; no claim depends on
it). -/
def tryBlock (sc : ScriptConfig) (arguments : List String) (o : SpawnOutcome)
    (t : Nat) : Except PyExn ScriptExecutionResult × Effects :=
  match o with
  | .spawnError m =>
      (.error (.exn m), { spawned := [.exec (["bash", sc.path] ++ arguments)] })
  | .timedOut _ =>
      (.error .timeoutError,
       { spawned := [.exec (["bash", sc.path] ++ arguments)] })
  | .completed rc outB errB =>
      match pyDecodeUtf8 outB with
      | none =>
          (.error (.unicodeDecodeError "UnicodeDecodeError"),
           { spawned := [.exec (["bash", sc.path] ++ arguments)] })
      | some outS =>
        match pyDecodeUtf8 errB with
        | none =>
            (.error (.unicodeDecodeError "UnicodeDecodeError"),
             { spawned := [.exec (["bash", sc.path] ++ arguments)] })
        | some errS =>
            (.ok { exit_code := pyOrInt rc 0
                   stdout := outS
                   stderr := errS
                   execution_time := t
                   script_name := sc.name },
             { spawned := [.exec (["bash", sc.path] ++ arguments)] })

/-- Whether the child process had still not exited when the timeout handler
ran (`process.returncode is None` at executor.py line 127). -/
def stillRunningAfterTimeout : SpawnOutcome → Bool
  | .timedOut s => s
  | _ => false

/-- executor.py `_execute_script_config` lines 98-147: run the try block,
then the two `except` clauses.  asyncio.TimeoutError: kill the still-running
process (a single forced kill; there is no prior termination signal) and
return the 124 result.  Any other Exception: return the exit-1 result with
stderr "Error executing script: " + str(e).  The handlers themselves cannot
raise, so the function is total. -/
def executeBody (sc : ScriptConfig) (arguments : List String) (o : SpawnOutcome)
    (t : Nat) : ScriptExecutionResult × Effects :=
  match tryBlock sc arguments o t with
  | (.ok r, eff) => (r, eff)
  | (.error .timeoutError, eff) =>
      ({ exit_code := 124
         stdout := ""
         stderr := "Script execution timed out after " ++ toString sc.timeout ++
           " seconds"
         execution_time := t
         script_name := sc.name },
       { eff with
           signals := eff.signals ++
             (if stillRunningAfterTimeout o then [Sig.kill] else []) })
  | (.error e, eff) =>
      ({ exit_code := 1
         stdout := ""
         stderr := "Error executing script: " ++ e.str
         execution_time := t
         script_name := sc.name },
       eff)

/-- executor.py `_execute_script_config` in full: the working-directory
resolution (lines 95-96) happens before the `try`, so a raise there
propagates to the caller; everything after is the total `executeBody`. -/
def _execute_script_config (file : ConfigFile) (st : ConfigManagerState)
    (sc : ScriptConfig) (arguments : List String) (o : SpawnOutcome) (t : Nat) :
    Except PyExn ScriptExecutionResult × ConfigManagerState × Effects :=
  match effectiveWorkingDir file st sc with
  | (.error e, st2) => (.error e, st2, {})
  | (.ok _, st2) =>
      ((Except.ok (executeBody sc arguments o t).1), st2,
        (executeBody sc arguments o t).2)

/-- config.py `ConfigManager.get_script_config`: config property (may load,
may raise) then dict.get; a successful call is a registry consultation and
is logged in the effects. -/
def get_script_config (file : ConfigFile) (st : ConfigManagerState)
    (name : String) :
    Except PyExn (Option ScriptConfig) × ConfigManagerState × Effects :=
  match configProp file st with
  | (.error e, st2) => (.error e, st2, {})
  | (.ok c, st2) => (.ok (lookupScript c.scripts name), st2, { lookups := [name] })

/-- executor.py `ScriptExecutor.execute_script` lines 51-72: look the name
up; raise ValueError "Script not found: ..." when absent; otherwise run the
configuration. -/
def execute_script (file : ConfigFile) (st : ConfigManagerState)
    (o : SpawnOutcome) (t : Nat) (script_name : String)
    (arguments : List String) :
    Except PyExn ScriptExecutionResult × ConfigManagerState × Effects :=
  match get_script_config file st script_name with
  | (.error e, st2, eff) => (.error e, st2, eff)
  | (.ok none, st2, eff) =>
      (.error (.valueError ("Script not found: " ++ script_name)), st2, eff)
  | (.ok (some sc), st2, eff) =>
      match _execute_script_config file st2 sc arguments o t with
      | (r, st3, eff2) => (r, st3, mergeEffects eff eff2)

/-- Script metadata dictionary built by executor.py
`list_available_scripts`. -/
structure ScriptInfo where
  name : String
  description : String
  path : String
  arguments : List String
  timeout : Nat
deriving DecidableEq

/-- Conversion from a ScriptConfig to the listing dictionary. -/
def toInfo (sc : ScriptConfig) : ScriptInfo :=
  { name := sc.name
    description := sc.description
    path := sc.path
    arguments := sc.arguments
    timeout := sc.timeout }

/-- executor.py `ScriptExecutor.list_available_scripts` lines 149-166: walk
the registry's key list, look each name up again, and keep the found ones
(the `if script_config:` guard becomes filterMap). -/
def list_available_scripts (file : ConfigFile) (st : ConfigManagerState) :
    Except PyExn (List ScriptInfo) × ConfigManagerState :=
  match configProp file st with
  | (.error e, st2) => (.error e, st2)
  | (.ok c, st2) =>
      (.ok ((c.scripts.map Prod.fst).filterMap
        (fun n => (lookupScript c.scripts n).map toInfo)), st2)

/-- executor.py `ScriptExecutor.get_script_info` lines 168-188: the Python
dict with the six fields is represented by the ScriptConfig itself. -/
def executor_get_script_info (file : ConfigFile) (st : ConfigManagerState)
    (name : String) :
    Except PyExn (Option ScriptConfig) × ConfigManagerState × Effects :=
  get_script_config file st name

/-- Relevant keys of the `arguments` dict a tool call carries; dict.get of a
missing key is None. -/
structure ToolParams where
  script_name : Option String := none
  arguments : Option (List String) := none
  path : Option String := none
deriving DecidableEq

/-- Protocol-level JSON-RPC error kinds the MCP envelope distinguishes. -/
inductive ErrorKind where
  | invalidParams
  | methodNotFound
  | internalError
deriving DecidableEq

/-- Response to a tool call: either a normal successful response carrying a
list of TextContent payloads (the only kind server.py's call_tool ever
returns), or a protocol-level JSON-RPC error — present in the type so claims
can state which kind a given input produces. -/
inductive ToolResponse where
  | content (texts : List String)
  | protocolError (kind : ErrorKind) (message : String)
deriving DecidableEq

/-- Check whether a response is a protocol-level error. -/
def ToolResponse.isProtocolError : ToolResponse → Bool
  | .content _ => false
  | .protocolError _ _ => true

/-- Python str() of a bool. -/
def pyBoolStr (b : Bool) : String := if b then "True" else "False"

/-- Python `', '.join(xs) if xs else 'None'`. -/
def pyJoinOrNone (args : List String) : String :=
  if args.isEmpty then "None" else String.intercalate ", " args

/-- Output block built by server.py `handle_run_script` lines 140-151.  The
f-string `{result.execution_time:.2f}` two-decimal float rendering is
abstracted to the decimal rendering of the modelled Nat. -/
def formatRunOutput (r : ScriptExecutionResult) : String :=
  String.intercalate "\n"
    ["Script: " ++ r.script_name,
     "Exit Code: " ++ toString r.exit_code,
     "Execution Time: " ++ toString r.execution_time ++ "s",
     "Success: " ++ pyBoolStr r.success,
     "",
     "STDOUT:",
     r.stdout,
     "",
     "STDERR:",
     r.stderr]

/-- server.py `handle_run_script` lines 128-156. -/
def handle_run_script (file : ConfigFile) (st : ConfigManagerState)
    (o : SpawnOutcome) (t : Nat) (params : ToolParams) :
    ToolResponse × ConfigManagerState × Effects :=
  if !(pyTruthyStr params.script_name) then
    (.content ["Error: script_name is required"], st, {})
  else
    match execute_script file st o t (params.script_name.getD "")
        (params.arguments.getD []) with
    | (.error e, st2, eff) =>
        (.content ["Error executing script: " ++ e.str], st2, eff)
    | (.ok r, st2, eff) => (.content [formatRunOutput r], st2, eff)

/-- Per-script block of server.py `handle_list_scripts` lines 168-176. -/
def scriptBlock (s : ScriptInfo) : List String :=
  ["Name: " ++ s.name,
   "Description: " ++ s.description,
   "Path: " ++ s.path,
   "Arguments: " ++ pyJoinOrNone s.arguments,
   "Timeout: " ++ toString s.timeout ++ "s",
   ""]

/-- Full output_lines list of server.py `handle_list_scripts`. -/
def listLines (scripts : List ScriptInfo) : List String :=
  ["Available Scripts:", ""] ++ (scripts.map scriptBlock).flatten

/-- server.py `handle_list_scripts` lines 159-181. -/
def handle_list_scripts (file : ConfigFile) (st : ConfigManagerState) :
    ToolResponse × ConfigManagerState × Effects :=
  match list_available_scripts file st with
  | (.error e, st2) =>
      (.content ["Error listing scripts: " ++ e.str], st2, {})
  | (.ok scripts, st2) =>
      if scripts.isEmpty then (.content ["No scripts configured"], st2, {})
      else
        (.content [String.intercalate "\n" (listLines scripts)], st2, {})

/-- Detail lines of server.py `handle_get_script_info` lines 197-206. -/
def infoLines (script_name : String) (sc : ScriptConfig) : List String :=
  ["Script Information: " ++ script_name,
   "",
   "Name: " ++ sc.name,
   "Description: " ++ sc.description,
   "Path: " ++ sc.path,
   "Arguments: " ++ pyJoinOrNone sc.arguments,
   "Timeout: " ++ toString sc.timeout ++ "s",
   "Working Directory: " ++ pyOrStr sc.working_directory "Default"]

/-- server.py `handle_get_script_info` lines 184-211. -/
def handle_get_script_info (file : ConfigFile) (st : ConfigManagerState)
    (params : ToolParams) : ToolResponse × ConfigManagerState × Effects :=
  if !(pyTruthyStr params.script_name) then
    (.content ["Error: script_name is required"], st, {})
  else
    match executor_get_script_info file st (params.script_name.getD "") with
    | (.error e, st2, eff) =>
        (.content ["Error getting script info: " ++ e.str], st2, eff)
    | (.ok none, st2, eff) =>
        (.content ["Script not found: " ++ params.script_name.getD ""], st2, eff)
    | (.ok (some sc), st2, eff) =>
        (.content
          [String.intercalate "\n" (infoLines (params.script_name.getD "") sc)],
         st2, eff)

/-- server.py `handle_get_working_directory` lines 214-221. -/
def handle_get_working_directory (file : ConfigFile)
    (st : ConfigManagerState) : ToolResponse × ConfigManagerState × Effects :=
  match configProp file st with
  | (.error e, st2) =>
      (.content ["Error getting working directory: " ++ e.str], st2, {})
  | (.ok c, st2) =>
      (.content ["Current working directory: " ++ c.working_directory], st2, {})

/-- server.py `handle_set_working_directory` lines 224-242: require the
path, check os.path.exists against the supplied filesystem (logged in
fsChecked), then mutate the in-memory config's working_directory field (the
config property loads first when needed). -/
def handle_set_working_directory (fs : List String) (file : ConfigFile)
    (st : ConfigManagerState) (params : ToolParams) :
    ToolResponse × ConfigManagerState × Effects :=
  if !(pyTruthyStr params.path) then
    (.content ["Error: path is required"], st, {})
  else
    if !(fs.contains (params.path.getD "")) then
      (.content ["Error: Directory does not exist: " ++ params.path.getD ""],
       st, { fsChecked := [params.path.getD ""] })
    else
      match configProp file st with
      | (.error e, st2) =>
          (.content ["Error setting working directory: " ++ e.str], st2,
           { fsChecked := [params.path.getD ""] })
      | (.ok c, _) =>
          (.content ["Working directory set to: " ++ params.path.getD ""],
           { _config := some { c with working_directory := params.path.getD "" } },
           { fsChecked := [params.path.getD ""] })

/-- server.py `handle_reload_config` lines 245-256 (the re-creation of the
executor object carries no state in the model). -/
def handle_reload_config (file : ConfigFile) (st : ConfigManagerState) :
    ToolResponse × ConfigManagerState × Effects :=
  match reload_config file st with
  | (.error e, st2) =>
      (.content ["Error reloading configuration: " ++ e.str], st2, {})
  | (.ok _, st2) =>
      (.content ["Configuration reloaded successfully"], st2, {})

/-- server.py `call_tool` lines 104-125: exact-name dispatch over the six
operations; any other name yields the normal "Unknown tool" content
response.  The surrounding try/except is unreachable because every handler
catches its own exceptions, as the handler embeddings are total. -/
def call_tool (file : ConfigFile) (fs : List String) (o : SpawnOutcome)
    (t : Nat) (st : ConfigManagerState) (name : String) (params : ToolParams) :
    ToolResponse × ConfigManagerState × Effects :=
  if name == "run_script" then handle_run_script file st o t params
  else if name == "list_scripts" then handle_list_scripts file st
  else if name == "get_script_info" then handle_get_script_info file st params
  else if name == "get_working_directory" then
    handle_get_working_directory file st
  else if name == "set_working_directory" then
    handle_set_working_directory fs file st params
  else if name == "reload_config" then handle_reload_config file st
  else (.content ["Unknown tool: " ++ name], st, {})

/-- Configuration of the sample "hello" script that config.py's
_save_default_config writes. -/
def sampleScript : ScriptConfig :=
  { name := "hello"
    path := "./scripts/hello.sh"
    description := "Simple hello world script"
    arguments := []
    working_directory := none
    timeout := 30 }

/-- Concrete script used to instantiate theorems about a populated
registry. -/
def scriptA : ScriptConfig :=
  { name := "a"
    path := "./a.sh"
    description := "first"
    arguments := ["x"]
    working_directory := none
    timeout := 10 }

/-- Second concrete script with a working-directory override. -/
def scriptB : ScriptConfig :=
  { name := "b"
    path := "./b.sh"
    description := "second"
    arguments := []
    working_directory := some "/tmp"
    timeout := 20 }

/-- Concrete configuration holding two scripts. -/
def cfgTwo : MCPConfig :=
  { working_directory := "."
    scripts := [("a", scriptA), ("b", scriptB)]
    docker_image := "ubuntu:22.04"
    container_name := "mcp-script-runner"
    mount_path := "/workspace" }

example : pyDecodeUtf8 [104, 105] = some "hi" := by decide
example : pyDecodeUtf8 [255] = none := by decide
example : pyDecodeUtf8 [] = some "" := by decide
example : pyDecodeUtf8 [226, 130, 172] = some "€" := by decide
example : pyDecodeUtf8 [237, 160, 128] = none := by decide
example : (executeBody sampleScript [] (.timedOut true) 31).2.signals = [Sig.kill] := by decide
example : (executeBody sampleScript [] (.completed (some 0) [255] []) 1).1.exit_code = 1 := by decide
example : (executeBody sampleScript ["a"] (.completed (some 0) [104] []) 1).1.stdout = "h" := by decide
example : (call_tool .missing [] (.spawnError "") 0 ⟨none⟩ "bogus" ⟨none, none, none⟩).1 = .content ["Unknown tool: bogus"] := by decide

/-- Helper: when the configuration is already loaded, the working-directory
resolution of executor.py line 95 always succeeds and leaves the manager
state unchanged. -/
theorem effectiveWorkingDir_loaded (file : ConfigFile) (c : MCPConfig)
    (sc : ScriptConfig) :
    ∃ wd, effectiveWorkingDir file ⟨some c⟩ sc = (.ok wd, ⟨some c⟩) := by
  cases h : sc.working_directory with
  | none =>
      exact ⟨c.working_directory,
        by simp [effectiveWorkingDir, h, fallbackWd, configProp]⟩
  | some s =>
      by_cases hs : s.isEmpty
      · exact ⟨c.working_directory,
          by simp [effectiveWorkingDir, h, hs, fallbackWd, configProp]⟩
      · exact ⟨s, by simp [effectiveWorkingDir, h, hs]⟩

/-- C1: for every script configuration, caller argument list, and process
outcome, the executor issues exactly one spawn request, it goes to the
no-shell exec primitive (asyncio.create_subprocess_exec, never a shell
string), and its argv is the interpreter token "bash", then the script
path, then each caller argument appended in order as its own discrete
token — so an argument containing shell metacharacters stays one literal
token. -/
theorem C1_argv_discrete_tokens_no_shell (sc : ScriptConfig)
    (arguments : List String) (o : SpawnOutcome) (t : Nat) :
    (executeBody sc arguments o t).2.spawned =
      [SpawnRequest.exec ("bash" :: sc.path :: arguments)] ∧
    ((executeBody sc arguments o t).2.spawned.all
      (fun r => !r.isShellCommand)) = true := by
  cases o with
  | spawnError m => simp [executeBody, tryBlock, SpawnRequest.isShellCommand]
  | timedOut s => simp [executeBody, tryBlock, SpawnRequest.isShellCommand]
  | completed rc outB errB =>
      cases h1 : pyDecodeUtf8 outB with
      | none => simp [executeBody, tryBlock, h1, SpawnRequest.isShellCommand]
      | some outS =>
          cases h2 : pyDecodeUtf8 errB with
          | none =>
              simp [executeBody, tryBlock, h1, h2, SpawnRequest.isShellCommand]
          | some errS =>
              simp [executeBody, tryBlock, h1, h2, SpawnRequest.isShellCommand]

/-- C2: with the configuration loaded (which is the case whenever execution
is reached through execute_script, since the lookup loads it), the executor
returns an ok ScriptExecutionResult for every environment outcome — no
exception escapes to the caller — and on a spawn failure the result is
exactly the exit-code-1 result whose stderr carries the error description. -/
theorem C2_execute_never_raises_spawn_failure_encoded (file : ConfigFile)
    (c : MCPConfig) (sc : ScriptConfig) (arguments : List String) (t : Nat) :
    (∀ o : SpawnOutcome, ∃ r : ScriptExecutionResult,
      (_execute_script_config file ⟨some c⟩ sc arguments o t).1 = .ok r) ∧
    (∀ m : String,
      (_execute_script_config file ⟨some c⟩ sc arguments (.spawnError m) t).1 =
        .ok { exit_code := 1
              stdout := ""
              stderr := "Error executing script: " ++ m
              execution_time := t
              script_name := sc.name }) := by
  obtain ⟨wd, hwd⟩ := effectiveWorkingDir_loaded file c sc
  constructor
  · intro o
    exact ⟨(executeBody sc arguments o t).1,
      by simp [_execute_script_config, hwd]⟩
  · intro m
    simp [_execute_script_config, hwd, executeBody, tryBlock, PyExn.str]

/-- C3 counterexample: for a process that outlives its timeout and is still
running when the handler fires, the code sends the single forced-kill
signal immediately; it does not first send a termination signal, so the
claimed terminate-then-kill sequence does not hold. -/
theorem C3_timeout_counterexample :
    (executeBody sampleScript [] (.timedOut true) 31).2.signals = [Sig.kill] ∧
    ¬((executeBody sampleScript [] (.timedOut true) 31).2.signals.head? =
        some Sig.term) := by decide

/-- C3 amended: on timeout the executor forcibly kills the process if it has
not already exited (a single kill, with no prior termination signal and no
grace period), and the returned result has exit_code 124, success false,
and stderr stating the timeout with the configured number of seconds. -/
theorem C3_timeout_kill_and_result (sc : ScriptConfig)
    (arguments : List String) (t : Nat) (still : Bool) :
    (executeBody sc arguments (.timedOut still) t).2.signals =
      (if still then [Sig.kill] else []) ∧
    (executeBody sc arguments (.timedOut still) t).1.exit_code = 124 ∧
    (executeBody sc arguments (.timedOut still) t).1.success = false ∧
    (executeBody sc arguments (.timedOut still) t).1.stderr =
      "Script execution timed out after " ++ toString sc.timeout ++
        " seconds" := by
  refine ⟨?_, ?_, ?_, ?_⟩ <;>
    simp [executeBody, tryBlock, stillRunningAfterTimeout,
      ScriptExecutionResult.success]

/-- C4 counterexample: a child that exits 0 but emits the non-UTF-8 byte
0xFF on stdout is not decoded with replacement; the strict decode fails and
the invocation is reclassified as a failure: exit_code 1 (not the child's
0), empty stdout, success false. -/
theorem C4_decode_counterexample :
    pyDecodeUtf8 [255] = none ∧
    (executeBody sampleScript [] (.completed (some 0) [255] []) 1).1.exit_code
      = 1 ∧
    (executeBody sampleScript [] (.completed (some 0) [255] []) 1).1.stdout
      = "" ∧
    (executeBody sampleScript [] (.completed (some 0) [255] []) 1).1.success
      = false := by decide

/-- C4 amended: captured bytes are decoded strictly, not with replacement.
When both streams are valid UTF-8 the result carries the decoded text and
the child's actual exit code (None coerced to 0); when either stream —
stdout or stderr — is not valid UTF-8, the strict decode failure is caught
by the generic exception handler and the invocation is reclassified as a
failure: exit_code 1, empty stdout, success false, and stderr carrying the
error description ("Error executing script: " followed by the modelled
UnicodeDecodeError text). -/
theorem C4_decode_strict_classification (sc : ScriptConfig)
    (arguments : List String) (rc : Option Int) (outB errB : List Nat)
    (t : Nat) :
    (∀ outS errS, pyDecodeUtf8 outB = some outS →
      pyDecodeUtf8 errB = some errS →
      (executeBody sc arguments (.completed rc outB errB) t).1 =
        { exit_code := pyOrInt rc 0
          stdout := outS
          stderr := errS
          execution_time := t
          script_name := sc.name }) ∧
    (pyDecodeUtf8 outB = none ∨ pyDecodeUtf8 errB = none →
      (executeBody sc arguments (.completed rc outB errB) t).1.exit_code = 1 ∧
      (executeBody sc arguments (.completed rc outB errB) t).1.stdout = "" ∧
      (executeBody sc arguments (.completed rc outB errB) t).1.success
        = false ∧
      (executeBody sc arguments (.completed rc outB errB) t).1.stderr =
        "Error executing script: " ++ "UnicodeDecodeError") := by
  constructor
  · intro outS errS h1 h2
    simp [executeBody, tryBlock, h1, h2]
  · intro h
    cases h1 : pyDecodeUtf8 outB with
    | none =>
        refine ⟨?_, ?_, ?_, ?_⟩ <;>
          simp [executeBody, tryBlock, h1, PyExn.str,
            ScriptExecutionResult.success]
    | some outS =>
        have h2 : pyDecodeUtf8 errB = none := by
          rcases h with h | h
          · rw [h1] at h
            exact absurd h (by simp)
          · exact h
        refine ⟨?_, ?_, ?_, ?_⟩ <;>
          simp [executeBody, tryBlock, h1, h2, PyExn.str,
            ScriptExecutionResult.success]

/-- C4 witness: the amended theorem evaluated at concrete inputs — a child
emitting the valid bytes "hi" / "!" with exit status 0; a child emitting
the invalid byte 0xFF on stdout; and a child emitting valid stdout "ok"
but the invalid byte 0xFF on stderr. -/
theorem C4_decode_strict_classification_witness :
    (executeBody sampleScript [] (.completed (some 0) [104, 105] [33]) 2).1 =
      { exit_code := pyOrInt (some 0) 0
        stdout := "hi"
        stderr := "!"
        execution_time := 2
        script_name := sampleScript.name } ∧
    ((executeBody sampleScript [] (.completed (some 0) [255] []) 3).1.exit_code
        = 1 ∧
      (executeBody sampleScript [] (.completed (some 0) [255] []) 3).1.stdout
        = "" ∧
      (executeBody sampleScript [] (.completed (some 0) [255] []) 3).1.success
        = false ∧
      (executeBody sampleScript [] (.completed (some 0) [255] []) 3).1.stderr
        = "Error executing script: " ++ "UnicodeDecodeError") ∧
    ((executeBody sampleScript []
        (.completed (some 0) [111, 107] [255]) 4).1.exit_code = 1 ∧
      (executeBody sampleScript []
        (.completed (some 0) [111, 107] [255]) 4).1.stdout = "" ∧
      (executeBody sampleScript []
        (.completed (some 0) [111, 107] [255]) 4).1.success = false ∧
      (executeBody sampleScript []
        (.completed (some 0) [111, 107] [255]) 4).1.stderr =
          "Error executing script: " ++ "UnicodeDecodeError") :=
  ⟨(C4_decode_strict_classification sampleScript [] (some 0) [104, 105] [33]
      2).1 "hi" "!" (by decide) (by decide),
   (C4_decode_strict_classification sampleScript [] (some 0) [255] [] 3).2
      (Or.inl (by decide)),
   (C4_decode_strict_classification sampleScript [] (some 0) [111, 107] [255]
      4).2 (Or.inr (by decide))⟩

/-- C5 counterexample: with script_name (resp. path) absent from the params,
each of the three handlers returns a normal successful content response
whose text says the parameter is required — not an InvalidParams
protocol-level error. -/
theorem C5_missing_param_counterexample :
    (handle_run_script .missing ⟨none⟩ (.spawnError "") 0
        ⟨none, none, none⟩).1 = .content ["Error: script_name is required"] ∧
    ((handle_run_script .missing ⟨none⟩ (.spawnError "") 0
        ⟨none, none, none⟩).1).isProtocolError = false ∧
    (handle_get_script_info .missing ⟨none⟩ ⟨none, none, none⟩).1 =
      .content ["Error: script_name is required"] ∧
    ((handle_get_script_info .missing ⟨none⟩
        ⟨none, none, none⟩).1).isProtocolError = false ∧
    (handle_set_working_directory [] .missing ⟨none⟩ ⟨none, none, none⟩).1 =
      .content ["Error: path is required"] ∧
    ((handle_set_working_directory [] .missing ⟨none⟩
        ⟨none, none, none⟩).1).isProtocolError = false := by decide

/-- C5 amended: a run_script or get_script_info request omitting
script_name, and a set_working_directory request omitting path, each get a
normal successful response whose single text says the parameter is
required; the handler leaves the manager state unchanged and performs no
effects.  No InvalidParams protocol error is produced. -/
theorem C5_missing_param_normal_response (file : ConfigFile)
    (fs : List String) (st : ConfigManagerState) (o : SpawnOutcome) (t : Nat)
    (args : Option (List String)) (p n : Option String) :
    handle_run_script file st o t ⟨none, args, p⟩ =
      (.content ["Error: script_name is required"], st, {}) ∧
    handle_get_script_info file st ⟨none, args, p⟩ =
      (.content ["Error: script_name is required"], st, {}) ∧
    handle_set_working_directory fs file st ⟨n, args, none⟩ =
      (.content ["Error: path is required"], st, {}) :=
  ⟨rfl, rfl, rfl⟩

/-- C6 counterexample: a request naming the unknown tool "bogus" yields a
normal successful content response "Unknown tool: bogus", not a
MethodNotFound protocol-level error. -/
theorem C6_unknown_tool_counterexample :
    call_tool .missing [] (.spawnError "") 0 ⟨none⟩ "bogus"
        ⟨none, none, none⟩ =
      (.content ["Unknown tool: bogus"], (⟨none⟩ : ConfigManagerState),
        ({} : Effects)) ∧
    (call_tool .missing [] (.spawnError "") 0 ⟨none⟩ "bogus"
        ⟨none, none, none⟩).1.isProtocolError = false := by decide

/-- C6 amended: for a name matching none of the six operations in the
dispatch table, the dispatcher returns the normal successful content
response "Unknown tool: " followed by the name — not a protocol-level
MethodNotFound error — with the state unchanged and no side effects. -/
theorem C6_unknown_tool_normal_response (file : ConfigFile)
    (fs : List String) (o : SpawnOutcome) (t : Nat) (st : ConfigManagerState)
    (name : String) (params : ToolParams)
    (h1 : (name == "run_script") = false)
    (h2 : (name == "list_scripts") = false)
    (h3 : (name == "get_script_info") = false)
    (h4 : (name == "get_working_directory") = false)
    (h5 : (name == "set_working_directory") = false)
    (h6 : (name == "reload_config") = false) :
    call_tool file fs o t st name params =
      (.content ["Unknown tool: " ++ name], st, {}) := by
  simp [call_tool, h1, h2, h3, h4, h5, h6]

/-- C6 witness: the amended theorem at the concrete unknown name "bogus". -/
theorem C6_unknown_tool_normal_response_witness :
    call_tool .missing [] (.spawnError "") 0 ⟨none⟩ "bogus"
        ⟨none, none, none⟩ =
      (.content ["Unknown tool: " ++ "bogus"], (⟨none⟩ : ConfigManagerState),
        ({} : Effects)) :=
  C6_unknown_tool_normal_response .missing [] (.spawnError "") 0 ⟨none⟩
    "bogus" ⟨none, none, none⟩ (by decide) (by decide) (by decide) (by decide)
    (by decide) (by decide)

/-- C7: a run_script request naming a script absent from the loaded registry
gets a normal (non-error) content response whose text states the script was
not found ("Error executing script: Script not found: " + name, via the
ValueError raised by execute_script and caught by the handler), and no
process is spawned: the effects hold the single registry lookup and an
empty spawn list. -/
theorem C7_unknown_script_normal_response (file : ConfigFile) (c : MCPConfig)
    (o : SpawnOutcome) (t : Nat) (name : String) (args : Option (List String))
    (p : Option String) (hname : name.isEmpty = false)
    (habs : lookupScript c.scripts name = none) :
    handle_run_script file ⟨some c⟩ o t ⟨some name, args, p⟩ =
      (.content ["Error executing script: " ++ ("Script not found: " ++ name)],
        ⟨some c⟩, { lookups := [name] }) ∧
    (handle_run_script file ⟨some c⟩ o t
        ⟨some name, args, p⟩).1.isProtocolError = false ∧
    (handle_run_script file ⟨some c⟩ o t ⟨some name, args, p⟩).2.2.spawned
      = [] := by
  have hmain : handle_run_script file ⟨some c⟩ o t ⟨some name, args, p⟩ =
      (.content ["Error executing script: " ++ ("Script not found: " ++ name)],
        ⟨some c⟩, { lookups := [name] }) := by
    simp [handle_run_script, pyTruthyStr, hname, execute_script,
      get_script_config, configProp, habs, PyExn.str]
  refine ⟨hmain, ?_, ?_⟩
  · rw [hmain]; rfl
  · rw [hmain]

/-- C7 witness: the theorem at the concrete name "ghost" against a loaded
registry with no scripts. -/
theorem C7_unknown_script_normal_response_witness :
    handle_run_script .missing ⟨some defaultMCPConfig⟩ (.spawnError "") 0
        ⟨some "ghost", none, none⟩ =
      (.content
          ["Error executing script: " ++ ("Script not found: " ++ "ghost")],
        ⟨some defaultMCPConfig⟩, { lookups := ["ghost"] }) ∧
    (handle_run_script .missing ⟨some defaultMCPConfig⟩ (.spawnError "") 0
        ⟨some "ghost", none, none⟩).1.isProtocolError = false ∧
    (handle_run_script .missing ⟨some defaultMCPConfig⟩ (.spawnError "") 0
        ⟨some "ghost", none, none⟩).2.2.spawned = [] :=
  C7_unknown_script_normal_response .missing defaultMCPConfig (.spawnError "")
    0 "ghost" none none (by decide) (by decide)

/-- Helper: with unique keys, re-looking-up every key of the scripts mapping
returns each script exactly once, in registry order. -/
theorem lookupScript_keys_filterMap (l : List (String × ScriptConfig))
    (h : (l.map Prod.fst).Nodup) :
    (l.map Prod.fst).filterMap (fun n => (lookupScript l n).map toInfo) =
      l.map (fun q => toInfo q.2) := by
  induction l with
  | nil => rfl
  | cons q tl ih =>
    obtain ⟨k, v⟩ := q
    rw [List.map_cons, List.nodup_cons] at h
    have hself : lookupScript ((k, v) :: tl) k = some v := by
      simp [lookupScript, List.find?]
    have htail : ∀ n ∈ tl.map Prod.fst,
        (lookupScript ((k, v) :: tl) n).map toInfo =
          (lookupScript tl n).map toInfo := by
      intro n hn
      have hne : (k == n) = false := by
        refine beq_eq_false_iff_ne.mpr ?_
        intro he
        exact h.1 (he ▸ hn)
      simp [lookupScript, List.find?, hne]
    rw [List.map_cons, List.filterMap_cons]
    rw [List.filterMap_congr htail, ih h.2]
    simp [hself]

/-- Helper: each listing block has six lines, so the flattened block list
has six lines per script. -/
theorem blocks_flatten_length (l : List ScriptInfo) :
    ((l.map scriptBlock).flatten).length = 6 * l.length := by
  induction l with
  | nil => rfl
  | cons a tl ih =>
    simp only [List.map_cons, List.flatten_cons, List.length_append, ih,
      List.length_cons, scriptBlock, List.length_nil]
    omega

/-- C8: against a loaded registry with unique script names, list_scripts on
an empty registry returns the normal content response "No scripts
configured" (not an error), and on N scripts returns the header plus
exactly N six-line blocks — one scriptBlock (name, description, path,
arguments, timeout lines) per registry entry, in order. -/
theorem C8_list_scripts_blocks (file : ConfigFile) (c : MCPConfig)
    (h : (c.scripts.map Prod.fst).Nodup) :
    (c.scripts = [] →
      handle_list_scripts file ⟨some c⟩ =
        (.content ["No scripts configured"], ⟨some c⟩, {})) ∧
    (c.scripts ≠ [] →
      handle_list_scripts file ⟨some c⟩ =
        (.content [String.intercalate "\n"
            (listLines (c.scripts.map (fun q => toInfo q.2)))],
          ⟨some c⟩, {})) ∧
    (listLines (c.scripts.map (fun q => toInfo q.2))).length =
      2 + 6 * c.scripts.length ∧
    ((c.scripts.map (fun q => toInfo q.2)).map scriptBlock).length =
      c.scripts.length := by
  have havail : list_available_scripts file ⟨some c⟩ =
      (.ok (c.scripts.map (fun q => toInfo q.2)), ⟨some c⟩) := by
    simp [list_available_scripts, configProp,
      lookupScript_keys_filterMap c.scripts h]
  refine ⟨?_, ?_, ?_, ?_⟩
  · intro he
    simp [handle_list_scripts, havail, he]
  · intro hne
    have hfalse : (c.scripts.map (fun q => toInfo q.2)).isEmpty = false := by
      cases hcs : c.scripts with
      | nil => exact absurd hcs hne
      | cons a tl => simp [hcs]
    simp [handle_list_scripts, havail, hfalse]
  · simp only [listLines, List.length_append, blocks_flatten_length,
      List.length_cons, List.length_nil, List.length_map]
  · simp

/-- C8 witness: the theorem applied to the loaded default (empty) registry
and to a loaded registry of two scripts. -/
theorem C8_list_scripts_blocks_witness :
    handle_list_scripts .missing ⟨some defaultMCPConfig⟩ =
      (.content ["No scripts configured"], ⟨some defaultMCPConfig⟩, {}) ∧
    handle_list_scripts .missing ⟨some cfgTwo⟩ =
      (.content [String.intercalate "\n"
          (listLines (cfgTwo.scripts.map (fun q => toInfo q.2)))],
        ⟨some cfgTwo⟩, {}) ∧
    (listLines (cfgTwo.scripts.map (fun q => toInfo q.2))).length =
      2 + 6 * cfgTwo.scripts.length :=
  ⟨(C8_list_scripts_blocks .missing defaultMCPConfig (by decide)).1 rfl,
   (C8_list_scripts_blocks .missing cfgTwo (by decide)).2.1 (by decide),
   (C8_list_scripts_blocks .missing cfgTwo (by decide)).2.2.1⟩

/-- C9: after a successful reload_config (the file parses to c2), the
in-memory configuration is exactly c2 again, whatever override an earlier
set_working_directory installed: the reload responds with the success text,
leaves the manager holding c2, a subsequent get_working_directory reports
c2's working directory, and a subsequent execution of a script without its
own override resolves its working directory to c2's value. -/
theorem C9_reload_resets_working_directory (fs : List String)
    (fileA fileB : ConfigFile) (st : ConfigManagerState) (c2 : MCPConfig)
    (params : ToolParams) (nm pa de : String) (ar : List String) (ti : Nat) :
    (handle_reload_config (.parsed (.ok c2))
        (handle_set_working_directory fs fileA st params).2.1).1 =
      .content ["Configuration reloaded successfully"] ∧
    (handle_reload_config (.parsed (.ok c2))
        (handle_set_working_directory fs fileA st params).2.1).2.1 =
      ⟨some c2⟩ ∧
    (handle_get_working_directory (.parsed (.ok c2))
        (handle_reload_config (.parsed (.ok c2))
          (handle_set_working_directory fs fileA st params).2.1).2.1).1 =
      .content ["Current working directory: " ++ c2.working_directory] ∧
    effectiveWorkingDir fileB
        (handle_reload_config (.parsed (.ok c2))
          (handle_set_working_directory fs fileA st params).2.1).2.1
        ⟨nm, pa, de, ar, none, ti⟩ =
      (.ok c2.working_directory, ⟨some c2⟩) :=
  ⟨rfl, rfl, rfl, rfl⟩

/-- C10: a required parameter supplied as the empty string behaves exactly
like an absent one: run_script and get_script_info with script_name ""
return the required-parameter response with no registry lookup and no spawn,
and set_working_directory with path "" returns the required-parameter
response without checking the filesystem or touching the stored working
directory — in each case identical to the handler's output on a missing
key, with the state unchanged and the effect log empty. -/
theorem C10_empty_string_like_absent (file : ConfigFile) (fs : List String)
    (st : ConfigManagerState) (o : SpawnOutcome) (t : Nat)
    (args : Option (List String)) (p n : Option String) :
    handle_run_script file st o t ⟨some "", args, p⟩ =
      handle_run_script file st o t ⟨none, args, p⟩ ∧
    handle_run_script file st o t ⟨some "", args, p⟩ =
      (.content ["Error: script_name is required"], st, {}) ∧
    handle_get_script_info file st ⟨some "", args, p⟩ =
      handle_get_script_info file st ⟨none, args, p⟩ ∧
    handle_get_script_info file st ⟨some "", args, p⟩ =
      (.content ["Error: script_name is required"], st, {}) ∧
    handle_set_working_directory fs file st ⟨n, args, some ""⟩ =
      handle_set_working_directory fs file st ⟨n, args, none⟩ ∧
    handle_set_working_directory fs file st ⟨n, args, some ""⟩ =
      (.content ["Error: path is required"], st, {}) :=
  ⟨rfl, rfl, rfl, rfl, rfl, rfl⟩
